import Mathlib

/-
  Verification development for the SayBot moderation bot (taskerbot.py).

  The Python source is shallowly embedded: each compiled regular expression
  becomes a deterministic matcher over character lists (the patterns involved
  have no genuine backtracking ambiguity: every starred class is followed by a
  character disjoint from it, or is a final to-end-of-line capture, so greedy
  matching is deterministic); the stateful methods of class Bot become pure
  functions from explicit inputs (fetched data, current state) to explicit
  outputs (new state, traces of platform calls). Python exceptions become
  error results carrying the trace of side effects already performed.
-/

set_option autoImplicit false

namespace SayBot

/-! ## Trigger grammar (the five compiled regular expressions, lines 15-21)

Python re.search finds the match at the leftmost starting position; the
IGNORECASE flag makes literal letters case-insensitive. Each matcher below
implements one pattern at a fixed start position; the search function scans
positions left to right. -/

/-- Strip a literal pattern prefix case-insensitively, returning the rest. -/
def stripCI : List Char → List Char → Option (List Char)
  | [], s => some s
  | _ :: _, [] => none
  | p :: ps, c :: cs => if c.toLower == p.toLower then stripCI ps cs else none

/-- Word character, as matched by the regex class backslash-w on the ASCII
inputs the bot deals with. -/
def isWordChar (c : Char) : Bool := c.isAlphanum || c == '_'

/-- Pattern (line 15) at a fixed start position. Captures the rule word and
the note (to end of line, leading spaces stripped by the greedy space run). -/
def matchRuleAt : List Char → Option (String × String)
  | [] => none
  | c :: rest =>
    if c == '@' || c == '!' then
      match stripCI "say ".toList rest with
      | none => none
      | some r1 =>
        let (w, r2) := r1.span isWordChar
        let r3 := r2.dropWhile (fun d => d == ' ')
        let note := r3.takeWhile (fun d => d != '\n')
        some (String.mk w, String.mk note)
    else none

/-- REGEX_RULE.search (line 15, line 126). -/
def regexRuleSearch (s : String) : Option (String × String) :=
  go s.toList
where
  go : List Char → Option (String × String)
    | [] => none
    | c :: rest =>
      match matchRuleAt (c :: rest) with
      | some g => some g
      | none => go rest

/-- Pattern (lines 16-18) at a fixed start position. Captures duration digits
(possibly empty), the quoted reason and the quoted ban message. -/
def matchTempBanAt : List Char → Option (String × String × String)
  | [] => none
  | c :: rest =>
    if c == '@' || c == '!' then
      match stripCI "notinuse ".toList rest with
      | none => none
      | some r1 =>
        let (ds, r2) := r1.span Char.isDigit
        match r2 with
        | ' ' :: '"' :: r3 =>
          let (rs, r4) := r3.span (fun d => d != '"')
          match r4 with
          | '"' :: ' ' :: '"' :: r5 =>
            let (ms, r6) := r5.span (fun d => d != '"')
            match r6 with
            | '"' :: _ => some (String.mk ds, String.mk rs, String.mk ms)
            | _ => none
          | _ => none
        | _ => none
    else none

/-- REGEX_TEMP_BAN.search (lines 16-18, line 170). -/
def regexTempBanSearch (s : String) : Option (String × String × String) :=
  go s.toList
where
  go : List Char → Option (String × String × String)
    | [] => none
    | c :: rest =>
      match matchTempBanAt (c :: rest) with
      | some g => some g
      | none => go rest

/-- Pattern (line 19) at a fixed start position. Captures the quoted reason
and the quoted ban message; no duration token. -/
def matchPermBanAt : List Char → Option (String × String)
  | [] => none
  | c :: rest =>
    if c == '@' || c == '!' then
      match stripCI "notinuse ".toList rest with
      | none => none
      | some r1 =>
        match r1 with
        | '"' :: r2 =>
          let (rs, r3) := r2.span (fun d => d != '"')
          match r3 with
          | '"' :: ' ' :: '"' :: r4 =>
            let (ms, r5) := r4.span (fun d => d != '"')
            match r5 with
            | '"' :: _ => some (String.mk rs, String.mk ms)
            | _ => none
          | _ => none
        | _ => none
    else none

/-- REGEX_PERM_BAN.search (line 19, line 171). -/
def regexPermBanSearch (s : String) : Option (String × String) :=
  go s.toList
where
  go : List Char → Option (String × String)
    | [] => none
    | c :: rest =>
      match matchPermBanAt (c :: rest) with
      | some g => some g
      | none => go rest

/-- Pattern (line 21) at a fixed start position. The dollar anchor (no
MULTILINE flag) admits only end of string, or a single final newline. -/
def matchSpamAt : List Char → Bool
  | [] => false
  | c :: rest =>
    if c == '@' || c == '!' then
      match stripCI "unused".toList rest with
      | none => false
      | some r => r == [] || r == ['\n']
    else false

/-- REGEX_SPAM.search (line 21, line 156), as a Boolean (the code only tests
truthiness of the match object). -/
def regexSpamSearch (s : String) : Bool :=
  go s.toList
where
  go : List Char → Bool
    | [] => false
    | c :: rest => matchSpamAt (c :: rest) || go rest

/-! ## Configuration loading (SCHEMA_VALIDATOR, lines 23-47; load_sub_config,
lines 64-82; refresh_sub, lines 84-90)

The wiki fetch, HTML unescape and YAML decode are external collaborators;
their combined outcome is an explicit input. A decoded YAML value is embedded
as `YVal` with just the shapes the schema distinguishes. -/

/-- A decoded YAML document value: a string, a mapping, or anything else
(number, list, null, ...). Mapping keys are unique in a decoded document. -/
inductive YVal where
  | str (s : String)
  | map (entries : List (String × YVal))
  | other

/-- Nonempty and all word characters: the propertyNames pattern of the schema
(line 44). -/
def isWordKey (s : String) : Bool :=
  !s.toList.isEmpty && s.toList.all isWordChar

/-- Value check for one top-level key of the reason document: Header and
Footer must be strings (properties, lines 31-35); every other key falls under
additionalProperties (lines 36-42) and must be an object whose Flair and
Message fields, when present, are strings. -/
def validEntryVal (k : String) (v : YVal) : Bool :=
  if k == "Header" || k == "Footer" then
    match v with
    | .str _ => true
    | _ => false
  else
    match v with
    | .map fields =>
      fields.all (fun fv =>
        if fv.1 == "Flair" || fv.1 == "Message" then
          match fv.2 with
          | .str _ => true
          | _ => false
        else true)
    | _ => false

/-- SCHEMA_VALIDATOR.validate as a Boolean (lines 23-47): the document is an
object, has Header, Footer and Generic, every key matches the word pattern and
every value satisfies its per-key check. -/
def validateReasons : YVal → Bool
  | .map entries =>
    (entries.lookup "Header").isSome &&
    (entries.lookup "Footer").isSome &&
    (entries.lookup "Generic").isSome &&
    entries.all (fun kv => isWordKey kv.1 && validEntryVal kv.1 kv.2)
  | _ => false

/-- Outcome of fetching and decoding the saybot wiki page (the body of the
try at lines 69-74): the fetch raises NotFound, or yaml.safe_load raises a
decode error, or a document is decoded. -/
inductive PageOutcome where
  | notFound
  | decodeError
  | decoded (doc : YVal)

/-- A YAML decode failure is the one exception class of the load path that
line 77 does not catch. -/
inductive LoadExn where
  | yamlError
  deriving DecidableEq, Repr

/-- Bot.load_sub_config (lines 64-82). Returns the fetched moderator list,
the reasons-or-null, and whether the warning at lines 79-81 was logged; a
decode error propagates because the except clause at line 77 names only
ValidationError and NotFound. -/
def load_sub_config (mods : List String) (page : PageOutcome) :
    Except LoadExn (List String × Option YVal × Bool) :=
  match page with
  | .notFound => .ok (mods, none, true)
  | .decodeError => .error .yamlError
  | .decoded doc =>
    if validateReasons doc then .ok (mods, some doc, false)
    else .ok (mods, none, true)

/-- Per-community in-memory state (the dict built at lines 59-62). -/
structure SubState where
  mods : List String
  reasons : Option YVal

/-- Bot.refresh_sub (lines 84-90): re-run load_sub_config; on return, always
overwrite mods and overwrite reasons only when the new value is not None. An
exception from the load propagates. -/
def refresh_sub (old : SubState) (newMods : List String) (page : PageOutcome) :
    Except LoadExn SubState :=
  match load_sub_config newMods page with
  | .error e => .error e
  | .ok (mods, reasons, _) =>
    .ok { mods := mods,
          reasons := match reasons with
            | some r => some r
            | none => old.reasons }

/-! ## Report dispatch (Bot.handle_report, lines 123-203)

handle_report runs only on communities whose stored reasons are non-null, and
reasons are stored only after SCHEMA_VALIDATOR accepted them (lines 58-62,
86-90, 245). A schema-valid document is exactly a Header string, a Footer
string and a table of rule objects with optional Flair and Message strings,
which `ReasonsDoc` captures. Platform calls become a trace of effects; a
Python exception becomes an error result carrying the trace of effects already
performed before the raise. -/

/-- One rule object of the reason table: optional Flair and Message. -/
structure RuleEntry where
  flair : Option String
  message : Option String
  deriving DecidableEq, Repr

/-- A schema-valid reason table: Header and Footer strings plus the remaining
keys (Generic among them) mapped to rule objects. -/
structure ReasonsDoc where
  header : String
  footer : String
  rules : List (String × RuleEntry)
  deriving DecidableEq, Repr

/-- A normalized report (lines 103-107 and 116-120): whether a triggering
source comment exists, the reason text and the reporting moderator name. -/
structure Report where
  hasSource : Bool
  reason : String
  author : String
  deriving DecidableEq, Repr

/-- The two target variants the dispatcher distinguishes (lines 147-151,
160-165): praw Submission and praw Comment. -/
inductive TKind where
  | submission
  | comment
  deriving DecidableEq, Repr

/-- The target content item: its variant, its author (None when the account
is deleted or unknown) and its permalink. -/
structure Target where
  kind : TKind
  author : Option String
  permalink : String
  deriving DecidableEq, Repr

/-- The Python exceptions the dispatcher can raise while indexing the reason
table. -/
inductive PyErr where
  | keyError
  | typeError
  deriving DecidableEq, Repr

/-- One platform call issued by handle_report, in program order. -/
inductive Effect where
  | approveSource
  | approveTarget
  | replySticky (msg : String)
  | flair (label : String)
  | removeSource
  | removeTargetSpam
  | removeTarget
  | banUser (user : String) (duration : Option String) (note : String)
      (message : String)
  | logCall (line : String)
  deriving DecidableEq, Repr

/-- Result of a dispatcher run: the trace of platform calls, or an uncaught
exception together with the calls already made before it was raised. -/
inductive HRes where
  | ok (trace : List Effect)
  | err (e : PyErr) (trace : List Effect)
  deriving DecidableEq, Repr

/-- Python membership test `rule in sub["reasons"]` (line 131): a dict key,
so Header, Footer, or any key of the rule table. -/
def memReasons (doc : ReasonsDoc) (rule : String) : Bool :=
  decide (rule = "Header") || decide (rule = "Footer") ||
    (doc.rules.lookup rule).isSome

/-- Lines 131-132: fall back to Generic when the captured word is not a key
of the reason table. -/
def resolveRule (doc : ReasonsDoc) (rule : String) : String :=
  if memReasons doc rule then rule else "Generic"

/-- The double indexing `sub["reasons"][rule]["Message"]` (line 133): Header
and Footer map to strings, so indexing them with a string raises TypeError; a
missing key or a rule object without Message raises KeyError. -/
def getMessage (doc : ReasonsDoc) (rule : String) : Except PyErr String :=
  if rule = "Header" ∨ rule = "Footer" then .error .typeError
  else
    match doc.rules.lookup rule with
    | none => .error .keyError
    | some entry =>
      match entry.message with
      | none => .error .keyError
      | some m => .ok m

/-- The double indexing `sub["reasons"][rule]["Flair"]` (line 149), with the
same error behavior as `getMessage`. -/
def getFlair (doc : ReasonsDoc) (rule : String) : Except PyErr String :=
  if rule = "Header" ∨ rule = "Footer" then .error .typeError
  else
    match doc.rules.lookup rule with
    | none => .error .keyError
    | some entry =>
      match entry.flair with
      | none => .error .keyError
      | some f => .ok f

/-- str.format(author=...) on the Header and Footer templates, each of which
has the single substitution slot {author}. -/
def pyFormatAuthor (template author : String) : String :=
  template.replace "{author}" author

/-- Line 141: the target author display name, or the literal OP fallback. -/
def targetAuthorName (t : Target) : String :=
  match t.author with
  | some a => a
  | none => "OP"

/-- Lines 141-143: the author-interpolated Header and Footer templates, bound
to local variables the rule branch never uses again. -/
def sayComputedHeaderFooter (doc : ReasonsDoc) (target : Target) :
    String × String :=
  (pyFormatAuthor doc.header (targetAuthorName target),
   pyFormatAuthor doc.footer (targetAuthorName target))

/-- The flair step of the rule branch (lines 147-149): nothing for a comment
target; for a submission, the Flair lookup (which may raise) then the flair
call. -/
def flairEffects (doc : ReasonsDoc) (rule : String) (k : TKind) :
    Except PyErr (List Effect) :=
  match k with
  | .comment => .ok []
  | .submission =>
    match getFlair doc rule with
    | .error e => .error e
    | .ok f => .ok [Effect.flair f]

/-- The rule-command branch of handle_report (lines 125-154). -/
def sayBranch (doc : ReasonsDoc) (report : Report) (target : Target) : HRes :=
  match regexRuleSearch report.reason with
  | none => .ok []
  | some (rule, note) =>
    let rule := resolveRule doc rule
    match getMessage doc rule with
    | .error e => .err e []
    | .ok m =>
      let msg := if note == "" then m else m ++ "\n\n" ++ note
      let t1 := (if report.hasSource then [Effect.approveSource] else []) ++
        [Effect.approveTarget]
      let _hf := sayComputedHeaderFooter doc target
      let t2 := t1 ++ [Effect.replySticky msg]
      match target.kind with
      | .submission =>
        match getFlair doc rule with
        | .error e => .err e t2
        | .ok f =>
          .ok (t2 ++ [Effect.flair f] ++
            [Effect.logCall (report.author ++ " removed " ++ target.permalink)])
      | .comment =>
        .ok (t2 ++
          [Effect.logCall (report.author ++ " removed " ++ target.permalink)])

/-- The spam-command branch of handle_report (lines 155-168). Both target
variants read the same permalink value (the comment variant through the fast
cached accessor). -/
def spamBranch (report : Report) (target : Target) : List Effect :=
  if regexSpamSearch report.reason then
    (if report.hasSource then [Effect.removeSource] else []) ++
    [Effect.removeTargetSpam,
     Effect.logCall (report.author ++ " removed " ++ target.permalink ++
       " (spam)")]
  else []

/-- The ban branch of handle_report (lines 169-203): when either ban pattern
matched, an unknown author skips the ban call itself (lines 173-174) and the
audit line (lines 198-203), but the removals at lines 195-197 run
unconditionally; a temporary match takes the elif at line 175 before the
permanent one at line 188. -/
def banBranch (report : Report) (target : Target) : List Effect :=
  let temp := regexTempBanSearch report.reason
  let perm := regexPermBanSearch report.reason
  if temp.isSome || perm.isSome then
    (match target.author with
     | none => []
     | some u =>
       match temp with
       | some (d, r, m) => [Effect.banUser u (some d) r m]
       | none =>
         match perm with
         | some (r, m) => [Effect.banUser u none r m]
         | none => []) ++
    (if report.hasSource then [Effect.removeSource] else []) ++
    [Effect.removeTarget] ++
    (match target.author with
     | some u => [Effect.logCall (report.author ++ " banned u/" ++ u)]
     | none => [])
  else []

/-- Bot.handle_report (lines 123-203): the three trigger branches run in
order; an exception in the rule branch aborts the rest. -/
def handle_report (doc : ReasonsDoc) (report : Report) (target : Target) :
    HRes :=
  match sayBranch doc report target with
  | .err e t => .err e t
  | .ok t1 => .ok (t1 ++ spamBranch report target ++ banBranch report target)

/-! ## Poll loop (Bot.run, lines 241-257) and audit log (Bot.log, lines
205-220) -/

/-- A fetch call the poll loop can issue for a community (lines 95 and 112).
-/
inductive FetchOp where
  | fetchComments (sub : String)
  | fetchReports (sub : String)
  deriving DecidableEq, Repr

/-- One cycle of Bot.run (lines 244-251): every configured community whose
stored reasons are None is skipped by the continue at lines 245-246; the rest
get a comment fetch then a report fetch. -/
def cycle_fetches (names : List String) (reasonsOf : String → Option YVal) :
    List FetchOp :=
  match names with
  | [] => []
  | n :: rest =>
    (match reasonsOf n with
     | none => []
     | some _ => [FetchOp.fetchComments n, FetchOp.fetchReports n]) ++
    cycle_fetches rest reasonsOf

/-- Outcome of reading the saybot_logs wiki page content (lines 209-219). -/
inductive WikiFetch where
  | content (c : String)
  | typeErr
  | notFound
  deriving DecidableEq, Repr

/-- Bot.log (lines 205-220). The state is the single bot-wide
logging_enabled flag (set once at line 54); the output is the edit call, as
the page written and its new content, or none. A not-found page clears the
flag and skips the write. -/
def bot_log (loggingEnabled : Bool) (subreddit msg : String)
    (fetch : WikiFetch) : Bool × Option (String × String) :=
  if loggingEnabled then
    match fetch with
    | .content c => (true, some (subreddit, c ++ msg ++ "  \n"))
    | .typeErr => (true, some (subreddit, "" ++ msg ++ "  \n"))
    | .notFound => (false, none)
  else (false, none)

/-! ## Concrete sample data for witnesses and counterexamples -/

/-- A typical schema-valid reason table (the shape of a loaded document). -/
def sampleDoc : ReasonsDoc :=
  { header := "Hello {author}.",
    footer := "Regards, {author}.",
    rules :=
      [("Generic", { flair := some "Removed", message := some "Be nice." }),
       ("Rule1", { flair := some "R1", message := some "Rule one." })] }

/-- A reason table whose Generic rule defines neither Message nor Flair. -/
def docNoMessage : ReasonsDoc :=
  { header := "H", footer := "F",
    rules := [("Generic", { flair := none, message := none })] }

/-- A reason table whose Generic rule defines Message but not Flair. -/
def docNoFlair : ReasonsDoc :=
  { header := "H", footer := "F",
    rules := [("Generic", { flair := none, message := some "Be nice." })] }

/-- A decoded YAML document whose Generic rule has no Message and no Flair,
used to check that the schema accepts such a document. -/
def yamlDocNoMessage : YVal :=
  YVal.map [("Header", YVal.str "H {author}"), ("Footer", YVal.str "F"),
    ("Generic", YVal.map [])]

/-- A decoded YAML document that fails schema validation (Generic missing). -/
def yamlDocInvalid : YVal :=
  YVal.map [("Header", YVal.str "H"), ("Footer", YVal.str "F")]

/-! ## Theorems -/

/-- Claim C3: refreshing when the new load yields null reasons leaves a
previously non-null stored reason table exactly unchanged, and whenever the
refresh completes, the stored moderator list is the newly fetched one
regardless of the reasons outcome. -/
theorem C3_refresh_behavior (old : SubState) (t : YVal) (newMods : List String)
    (page : PageOutcome) (hold : old.reasons = some t) :
    (∀ s, refresh_sub old newMods page = .ok s → s.mods = newMods) ∧
    ((page = PageOutcome.notFound ∨
        ∃ d, page = PageOutcome.decoded d ∧ validateReasons d = false) →
      refresh_sub old newMods page =
        .ok { mods := newMods, reasons := some t }) := by
  constructor
  · intro s hs
    cases page with
    | notFound =>
      simp [refresh_sub, load_sub_config] at hs
      simp [← hs]
    | decodeError =>
      simp [refresh_sub, load_sub_config] at hs
    | decoded d =>
      by_cases hv : validateReasons d <;>
        simp [refresh_sub, load_sub_config, hv] at hs <;> simp [← hs]
  · rintro (h | ⟨d, hd, hv⟩)
    · subst h
      simp [refresh_sub, load_sub_config, hold]
    · subst hd
      simp [refresh_sub, load_sub_config, hv, hold]

/-- Witness for C3 at a concrete community state and a not-found load. -/
theorem C3_refresh_witness :
    refresh_sub { mods := ["oldMod"], reasons := some yamlDocNoMessage }
      ["newMod"] PageOutcome.notFound =
      .ok { mods := ["newMod"], reasons := some yamlDocNoMessage } :=
  (C3_refresh_behavior { mods := ["oldMod"], reasons := some yamlDocNoMessage }
    yamlDocNoMessage ["newMod"] PageOutcome.notFound rfl).2 (Or.inl rfl)

/-- Every fetch operation a cycle issues belongs to a community whose stored
reasons are non-null. -/
theorem cycle_fetches_mem (names : List String)
    (reasonsOf : String → Option YVal) (op : FetchOp)
    (h : op ∈ cycle_fetches names reasonsOf) :
    ∃ n v, reasonsOf n = some v ∧
      (op = FetchOp.fetchComments n ∨ op = FetchOp.fetchReports n) := by
  induction names with
  | nil => simp [cycle_fetches] at h
  | cons n rest ih =>
    simp only [cycle_fetches, List.mem_append] at h
    rcases h with h | h
    · cases hr : reasonsOf n with
      | none =>
        rw [hr] at h
        simp at h
      | some v =>
        rw [hr] at h
        simp only [List.mem_cons, List.not_mem_nil, or_false] at h
        exact ⟨n, v, hr, h⟩
    · exact ih h

/-- Claim C4: in any poll-loop cycle, a configured community whose stored
reason table is null receives neither a comment fetch nor a report fetch. -/
theorem C4_skip_behavior (names : List String)
    (reasonsOf : String → Option YVal) (s : String)
    (h : reasonsOf s = none) :
    FetchOp.fetchComments s ∉ cycle_fetches names reasonsOf ∧
    FetchOp.fetchReports s ∉ cycle_fetches names reasonsOf := by
  constructor <;> intro hmem
  · obtain ⟨n, v, hv, hop | hop⟩ := cycle_fetches_mem names reasonsOf _ hmem
    · cases hop
      rw [h] at hv
      cases hv
    · cases hop
  · obtain ⟨n, v, hv, hop | hop⟩ := cycle_fetches_mem names reasonsOf _ hmem
    · cases hop
    · cases hop
      rw [h] at hv
      cases hv

/-- Witness for C4 at a concrete two-community configuration where one
community has null reasons. -/
theorem C4_skip_witness :
    FetchOp.fetchComments "subNull" ∉
      cycle_fetches ["subNull", "subOk"]
        (fun n => if n = "subOk" then some yamlDocNoMessage else none) ∧
    FetchOp.fetchReports "subNull" ∉
      cycle_fetches ["subNull", "subOk"]
        (fun n => if n = "subOk" then some yamlDocNoMessage else none) :=
  C4_skip_behavior ["subNull", "subOk"]
    (fun n => if n = "subOk" then some yamlDocNoMessage else none)
    "subNull" (by simp)

/-- Claim C7 (counterexample): a YAML decode failure while loading the
reason document is not caught by the except clause, so load_sub_config
raises to its caller instead of returning null reasons; the claim that
not-found, decode failure and validation failure are all treated identically
and never raise is therefore false. -/
theorem C7_counterexample :
    load_sub_config ["modA"] PageOutcome.decodeError =
      .error LoadExn.yamlError := rfl

/-- Claim C7 (amended): load_sub_config returns the fetched moderator list
whenever it returns; a not-found fetch or a schema-validation failure are
treated identically, returning null reasons with a logged warning and no
exception; a valid document is returned as the reasons; but a YAML decode
failure propagates to the caller. -/
theorem C7_load_behavior (mods : List String) :
    (∀ page res, load_sub_config mods page = .ok res → res.1 = mods) ∧
    (∀ page, (page = PageOutcome.notFound ∨
        ∃ d, page = PageOutcome.decoded d ∧ validateReasons d = false) →
      load_sub_config mods page = .ok (mods, none, true)) ∧
    (∀ d, validateReasons d = true →
      load_sub_config mods (PageOutcome.decoded d) = .ok (mods, some d, false)) ∧
    load_sub_config mods PageOutcome.decodeError = .error LoadExn.yamlError := by
  refine ⟨?_, ?_, ?_, rfl⟩
  · intro page res hres
    cases page with
    | notFound => simp [load_sub_config] at hres; simp [← hres]
    | decodeError => simp [load_sub_config] at hres
    | decoded d =>
      by_cases hv : validateReasons d <;>
        simp [load_sub_config, hv] at hres <;> simp [← hres]
  · rintro page (h | ⟨d, hd, hv⟩)
    · subst h
      simp [load_sub_config]
    · subst hd
      simp [load_sub_config, hv]
  · intro d hv
    simp [load_sub_config, hv]

/-- Witness for C7 at the concrete invalid document and a concrete valid
document. -/
theorem C7_load_witness :
    load_sub_config ["modA"] (PageOutcome.decoded yamlDocInvalid) =
      .ok (["modA"], none, true) ∧
    load_sub_config ["modA"] (PageOutcome.decoded yamlDocNoMessage) =
      .ok (["modA"], some yamlDocNoMessage, false) :=
  ⟨(C7_load_behavior ["modA"]).2.1 (PageOutcome.decoded yamlDocInvalid)
      (Or.inr ⟨yamlDocInvalid, rfl, rfl⟩),
   (C7_load_behavior ["modA"]).2.2.1 yamlDocNoMessage rfl⟩

/-- Claim C8 (counterexample): the logging latch is one bot-wide flag, not a
per-community one; after a not-found failure while logging for one community,
a log call for a different community performs no write, so audit logging for
the other communities does not continue. -/
theorem C8_counterexample :
    bot_log true "subA" "lineA" WikiFetch.notFound = (false, none) ∧
    (bot_log (bot_log true "subA" "lineA" WikiFetch.notFound).1 "subB"
      "lineB" (WikiFetch.content "")).2 = none :=
  ⟨rfl, rfl⟩

/-- Claim C8 (amended): after the first not-found failure while writing any
community audit log, logging is disabled process-wide for all communities for
the remainder of the process lifetime: a not-found fetch clears the flag and
writes nothing, and with the flag cleared every later call, for any community
and any fetch outcome, writes nothing and leaves the flag cleared. -/
theorem C8_latch_behavior :
    ∀ (s1 m1 : String) (f : WikiFetch) (s2 m2 : String),
      bot_log false s1 m1 f = (false, none) ∧
      bot_log true s2 m2 WikiFetch.notFound = (false, none) :=
  fun _ _ _ _ _ => ⟨rfl, rfl⟩

/-- Claim C10: the temporary-ban pattern accepts an empty duration token, so
a body with two spaces and no digits matches the temporary form with empty
duration (and not the permanent form), and handle_report issues a timed ban
whose duration argument is the empty string. -/
theorem C10_empty_duration_behavior :
    regexTempBanSearch "@notinuse  \"abuse\" \"stop it\"" =
      some ("", "abuse", "stop it") ∧
    regexPermBanSearch "@notinuse  \"abuse\" \"stop it\"" = none ∧
    handle_report sampleDoc
      { hasSource := false, reason := "@notinuse  \"abuse\" \"stop it\"",
        author := "modA" }
      { kind := TKind.comment, author := some "usr", permalink := "/r/s/c4" } =
      HRes.ok [Effect.banUser "usr" (some "") "abuse" "stop it",
        Effect.removeTarget, Effect.logCall "modA banned u/usr"] :=
  ⟨rfl, rfl, rfl⟩

/-- Unfolding of the rule branch on a successful run: the match groups, a
Message lookup that succeeds and a flair step that succeeds determine the
exact trace. -/
theorem sayBranch_spec (doc : ReasonsDoc) (report : Report) (target : Target)
    (rule note msg : String) (flE : List Effect)
    (hmatch : regexRuleSearch report.reason = some (rule, note))
    (hmsg : getMessage doc (resolveRule doc rule) = .ok msg)
    (hfl : flairEffects doc (resolveRule doc rule) target.kind = .ok flE) :
    sayBranch doc report target =
      HRes.ok ((if report.hasSource then [Effect.approveSource] else []) ++
        [Effect.approveTarget,
         Effect.replySticky (if note == "" then msg else msg ++ "\n\n" ++ note)] ++
        flE ++
        [Effect.logCall (report.author ++ " removed " ++ target.permalink)]) := by
  obtain ⟨k, a, p⟩ := target
  cases k with
  | submission =>
    simp only [flairEffects] at hfl
    cases hgf : getFlair doc (resolveRule doc rule) with
    | error e =>
      rw [hgf] at hfl
      simp at hfl
    | ok f =>
      rw [hgf] at hfl
      simp at hfl
      subst hfl
      simp only [sayBranch, hmatch, hmsg, hgf]
      simp
  | comment =>
    simp only [flairEffects] at hfl
    simp at hfl
    subst hfl
    simp only [sayBranch, hmatch, hmsg]
    simp

/-- Claim C5: the resolved rule is the captured name when it is a key of the
reason table and Generic otherwise; the sticky distinguished reply consists
solely of the resolved rule Message, followed by a blank line and the note
exactly when the captured note is non-empty; and the reply is unchanged under
any Header and Footer templates, which are computed into unused locals. -/
theorem C5_say_behavior (doc : ReasonsDoc) (report : Report) (target : Target)
    (rule note msg : String) (flE : List Effect)
    (hmatch : regexRuleSearch report.reason = some (rule, note))
    (hmsg : getMessage doc (resolveRule doc rule) = .ok msg)
    (hfl : flairEffects doc (resolveRule doc rule) target.kind = .ok flE) :
    (memReasons doc rule = true → resolveRule doc rule = rule) ∧
    (memReasons doc rule = false → resolveRule doc rule = "Generic") ∧
    sayBranch doc report target =
      HRes.ok ((if report.hasSource then [Effect.approveSource] else []) ++
        [Effect.approveTarget,
         Effect.replySticky (if note == "" then msg else msg ++ "\n\n" ++ note)] ++
        flE ++
        [Effect.logCall (report.author ++ " removed " ++ target.permalink)]) ∧
    (∀ h f, sayBranch { doc with header := h, footer := f } report target =
      sayBranch doc report target) := by
  refine ⟨fun hm => by simp [resolveRule, hm], fun hm => by simp [resolveRule, hm],
    sayBranch_spec doc report target rule note msg flE hmatch hmsg hfl,
    fun h f => ?_⟩
  rw [sayBranch_spec { doc with header := h, footer := f } report target
      rule note msg flE hmatch hmsg hfl,
    sayBranch_spec doc report target rule note msg flE hmatch hmsg hfl]

/-- Witness for C5: a say report with an unknown rule name and a note, on a
comment target; the resolved rule is Generic and the reply is its Message,
a blank line and the note. -/
theorem C5_say_witness :
    sayBranch sampleDoc
      { hasSource := true, reason := "@say Unknown please stop",
        author := "modA" }
      { kind := TKind.comment, author := some "usr", permalink := "/r/s/c5" } =
      HRes.ok [Effect.approveSource, Effect.approveTarget,
        Effect.replySticky "Be nice.\n\nplease stop",
        Effect.logCall "modA removed /r/s/c5"] := by
  have h := (C5_say_behavior sampleDoc
    { hasSource := true, reason := "@say Unknown please stop",
      author := "modA" }
    { kind := TKind.comment, author := some "usr", permalink := "/r/s/c5" }
    "Unknown" "please stop" "Be nice." [] (by decide) rfl rfl).2.2.1
  simpa using h

/-- Claim C1 (counterexample): a permanent-ban report whose target author is
unknown still removes the triggering source comment and the target, so the
claim that zero removal calls happen is false; the ban call and the audit
line are indeed absent. -/
theorem C1_counterexample :
    handle_report sampleDoc
      { hasSource := true, reason := "@notinuse \"abuse\" \"stop it\"",
        author := "modA" }
      { kind := TKind.comment, author := none, permalink := "/r/s/c1" } =
      HRes.ok [Effect.removeSource, Effect.removeTarget] := rfl

/-- Claim C1 (amended): for a report whose reason matches a ban trigger and
no other trigger, on a target whose author is unknown, handle_report performs
zero ban calls and writes zero audit-log lines, but it still removes the
triggering source comment when present and the target. -/
theorem C1_amended_behavior (doc : ReasonsDoc) (report : Report)
    (target : Target)
    (hsay : regexRuleSearch report.reason = none)
    (hspam : regexSpamSearch report.reason = false)
    (hban : ((regexTempBanSearch report.reason).isSome ||
      (regexPermBanSearch report.reason).isSome) = true)
    (hauthor : target.author = none) :
    handle_report doc report target =
      HRes.ok ((if report.hasSource then [Effect.removeSource] else []) ++
        [Effect.removeTarget]) := by
  simp only [handle_report, sayBranch, spamBranch, banBranch, hsay, hspam,
    hauthor, hban]
  simp

/-- Witness for C1 (amended) at the concrete counterexample input. -/
theorem C1_amended_witness :
    handle_report sampleDoc
      { hasSource := true, reason := "@notinuse \"abuse\" \"stop it\"",
        author := "modA" }
      { kind := TKind.comment, author := none, permalink := "/r/s/c1" } =
      HRes.ok [Effect.removeSource, Effect.removeTarget] := by
  have h := C1_amended_behavior sampleDoc
    { hasSource := true, reason := "@notinuse \"abuse\" \"stop it\"",
      author := "modA" }
    { kind := TKind.comment, author := none, permalink := "/r/s/c1" }
    (by decide) (by decide) (by decide) rfl
  simpa using h

/-- Claim C2 (counterexample): on the cited reason text the spam trigger does
not fire because its pattern is anchored at the end of the body, so only the
ban sequence is produced: the trace holds the ban, the target removal and the
banned audit line, and no spam removal and no spam audit line. -/
theorem C2_counterexample :
    handle_report sampleDoc
      { hasSource := false,
        reason := "@unused @notinuse \"spammer\" \"go away\"",
        author := "modA" }
      { kind := TKind.submission, author := some "bad",
        permalink := "/r/s/p2" } =
      HRes.ok [Effect.banUser "bad" none "spammer" "go away",
        Effect.removeTarget, Effect.logCall "modA banned u/bad"] := rfl

/-- Claim C2 (amended): the say and ban triggers are substring matches
anywhere in the body, but the spam trigger is anchored at the end of the
body; the branches remain non-exclusive: a reason that ends with the spam
trigger and also contains a permanent-ban trigger, on a target with a known
author, produces both the spam-removal sequence with its spam audit line and
the ban sequence with its banned audit line. -/
theorem C2_amended_behavior (doc : ReasonsDoc) (report : Report)
    (target : Target) (u rsn msg : String)
    (hsay : regexRuleSearch report.reason = none)
    (hspam : regexSpamSearch report.reason = true)
    (htemp : regexTempBanSearch report.reason = none)
    (hperm : regexPermBanSearch report.reason = some (rsn, msg))
    (hauthor : target.author = some u) :
    handle_report doc report target =
      HRes.ok ((if report.hasSource then [Effect.removeSource] else []) ++
        [Effect.removeTargetSpam,
         Effect.logCall (report.author ++ " removed " ++ target.permalink ++
           " (spam)")] ++
        [Effect.banUser u none rsn msg] ++
        (if report.hasSource then [Effect.removeSource] else []) ++
        [Effect.removeTarget,
         Effect.logCall (report.author ++ " banned u/" ++ u)]) := by
  simp only [handle_report, sayBranch, spamBranch, banBranch, hsay, hspam,
    htemp, hperm, hauthor]
  simp

/-- Witness for C2 (amended): the cited example with the spam trigger moved
to the end of the body fires both sequences. -/
theorem C2_amended_witness :
    handle_report sampleDoc
      { hasSource := true,
        reason := "@notinuse \"spammer\" \"go away\" @unused",
        author := "modA" }
      { kind := TKind.submission, author := some "bad",
        permalink := "/r/s/p3" } =
      HRes.ok [Effect.removeSource, Effect.removeTargetSpam,
        Effect.logCall "modA removed /r/s/p3 (spam)",
        Effect.banUser "bad" none "spammer" "go away",
        Effect.removeSource, Effect.removeTarget,
        Effect.logCall "modA banned u/bad"] := by
  have h := C2_amended_behavior sampleDoc
    { hasSource := true,
      reason := "@notinuse \"spammer\" \"go away\" @unused",
      author := "modA" }
    { kind := TKind.submission, author := some "bad",
      permalink := "/r/s/p3" }
    "bad" "spammer" "go away" (by decide) (by decide) (by decide) (by decide)
    rfl
  simpa using h

/-- Claim C6: the quoted body with a leading digit parses as a temporary ban
with duration 3, reason abuse and message stop it; without the digit the
temporary form does not match and the permanent form extracts reason abuse
and message stop it; and whenever both forms match a reason on a target with
a known author, the dispatcher issues the temporary ban. -/
theorem C6_ban_parse_behavior :
    regexTempBanSearch "@notinuse 3 \"abuse\" \"stop it\"" =
      some ("3", "abuse", "stop it") ∧
    regexTempBanSearch "@notinuse \"abuse\" \"stop it\"" = none ∧
    regexPermBanSearch "@notinuse \"abuse\" \"stop it\"" =
      some ("abuse", "stop it") ∧
    (∀ (report : Report) (target : Target) (u d rsn msg : String),
      regexTempBanSearch report.reason = some (d, rsn, msg) →
      (regexPermBanSearch report.reason).isSome = true →
      target.author = some u →
      banBranch report target =
        [Effect.banUser u (some d) rsn msg] ++
        (if report.hasSource then [Effect.removeSource] else []) ++
        [Effect.removeTarget,
         Effect.logCall (report.author ++ " banned u/" ++ u)]) := by
  refine ⟨rfl, rfl, rfl, ?_⟩
  intro report target u d rsn msg htemp _hperm hauthor
  simp only [banBranch, htemp, hauthor]
  simp

/-- Witness for C6 on a body matching both ban forms: the temporary groups
win. -/
theorem C6_ban_parse_witness :
    banBranch
      { hasSource := false,
        reason := "@notinuse 3 \"a\" \"b\" !notinuse \"c\" \"d\"",
        author := "modA" }
      { kind := TKind.comment, author := some "bad", permalink := "/p" } =
      [Effect.banUser "bad" (some "3") "a" "b", Effect.removeTarget,
       Effect.logCall "modA banned u/bad"] := by
  have h := C6_ban_parse_behavior.2.2.2
    { hasSource := false,
      reason := "@notinuse 3 \"a\" \"b\" !notinuse \"c\" \"d\"",
      author := "modA" }
    { kind := TKind.comment, author := some "bad", permalink := "/p" }
    "bad" "3" "a" "b" (by decide) (by decide) rfl
  simpa using h

/-- Message lookup fails with KeyError when the resolved key is a rule entry
without a Message field. -/
theorem getMessage_of_no_message (doc : ReasonsDoc) (rule : String)
    (entry : RuleEntry)
    (h1 : rule ≠ "Header") (h2 : rule ≠ "Footer")
    (h3 : doc.rules.lookup rule = some entry)
    (h4 : entry.message = none) :
    getMessage doc rule = .error PyErr.keyError := by
  unfold getMessage
  rw [if_neg (by tauto), h3]
  simp [h4]

/-- Message lookup succeeds when the resolved key is a rule entry with a
Message field. -/
theorem getMessage_of_message (doc : ReasonsDoc) (rule : String)
    (entry : RuleEntry) (m : String)
    (h1 : rule ≠ "Header") (h2 : rule ≠ "Footer")
    (h3 : doc.rules.lookup rule = some entry)
    (h4 : entry.message = some m) :
    getMessage doc rule = .ok m := by
  unfold getMessage
  rw [if_neg (by tauto), h3]
  simp [h4]

/-- Flair lookup fails with KeyError when the resolved key is a rule entry
without a Flair field. -/
theorem getFlair_of_no_flair (doc : ReasonsDoc) (rule : String)
    (entry : RuleEntry)
    (h1 : rule ≠ "Header") (h2 : rule ≠ "Footer")
    (h3 : doc.rules.lookup rule = some entry)
    (h4 : entry.flair = none) :
    getFlair doc rule = .error PyErr.keyError := by
  unfold getFlair
  rw [if_neg (by tauto), h3]
  simp [h4]

/-- Claim C9: the schema accepts a rule entry defining neither Message nor
Flair; a resolved rule entry without Message makes the rule branch raise
KeyError before any platform call; and on a submission target a resolved rule
entry with Message but without Flair makes the rule branch raise KeyError
after the approvals and the sticky reply have already been issued. -/
theorem C9_totality_behavior :
    validateReasons yamlDocNoMessage = true ∧
    (∀ (doc : ReasonsDoc) (report : Report) (target : Target)
      (rule note : String) (entry : RuleEntry),
      regexRuleSearch report.reason = some (rule, note) →
      resolveRule doc rule ≠ "Header" →
      resolveRule doc rule ≠ "Footer" →
      doc.rules.lookup (resolveRule doc rule) = some entry →
      entry.message = none →
      sayBranch doc report target = HRes.err PyErr.keyError []) ∧
    (∀ (doc : ReasonsDoc) (report : Report) (target : Target)
      (rule note msg : String) (entry : RuleEntry),
      regexRuleSearch report.reason = some (rule, note) →
      resolveRule doc rule ≠ "Header" →
      resolveRule doc rule ≠ "Footer" →
      doc.rules.lookup (resolveRule doc rule) = some entry →
      entry.message = some msg →
      entry.flair = none →
      target.kind = TKind.submission →
      sayBranch doc report target = HRes.err PyErr.keyError
        ((if report.hasSource then [Effect.approveSource] else []) ++
         [Effect.approveTarget,
          Effect.replySticky
            (if note == "" then msg else msg ++ "\n\n" ++ note)])) := by
  refine ⟨rfl, ?_, ?_⟩
  · intro doc report target rule note entry hmatch hh hf hlook hmsg
    simp only [sayBranch, hmatch,
      getMessage_of_no_message doc (resolveRule doc rule) entry hh hf hlook
        hmsg]
  · intro doc report target rule note msg entry hmatch hh hf hlook hmsg hflr
      hkind
    simp only [sayBranch, hmatch,
      getMessage_of_message doc (resolveRule doc rule) entry msg hh hf hlook
        hmsg,
      hkind,
      getFlair_of_no_flair doc (resolveRule doc rule) entry hh hf hlook hflr]
    simp

/-- Witness for C9: concrete runs on the two sample tables, one erroring
before any platform call and one after the approvals and the reply. -/
theorem C9_totality_witness :
    validateReasons yamlDocNoMessage = true ∧
    sayBranch docNoMessage
      { hasSource := true, reason := "@say Foo", author := "modA" }
      { kind := TKind.comment, author := some "usr", permalink := "/r/s/c7" } =
      HRes.err PyErr.keyError [] ∧
    sayBranch docNoFlair
      { hasSource := true, reason := "@say Foo", author := "modA" }
      { kind := TKind.submission, author := some "usr",
        permalink := "/r/s/p8" } =
      HRes.err PyErr.keyError [Effect.approveSource, Effect.approveTarget,
        Effect.replySticky "Be nice."] := by
  refine ⟨C9_totality_behavior.1, ?_, ?_⟩
  · exact C9_totality_behavior.2.1 docNoMessage
      { hasSource := true, reason := "@say Foo", author := "modA" }
      { kind := TKind.comment, author := some "usr", permalink := "/r/s/c7" }
      "Foo" "" { flair := none, message := none }
      (by decide) (by decide) (by decide) (by decide) rfl
  · have h := C9_totality_behavior.2.2 docNoFlair
      { hasSource := true, reason := "@say Foo", author := "modA" }
      { kind := TKind.submission, author := some "usr",
        permalink := "/r/s/p8" }
      "Foo" "" "Be nice." { flair := none, message := some "Be nice." }
      (by decide) (by decide) (by decide) (by decide) rfl rfl rfl
    simpa using h

end SayBot
